import Mathlib

/-!
Shallow embedding of `drivers/cpuidle/cpuidle-powernv.c` (PowerNV cpuidle
driver) and proofs about its capability probe, snooze-timeout selector,
the three entry routines and the hotplug notifier.

Modelling conventions:
* machine integers are `Nat`; device-tree cells are already decoded u32
  values (`be32_to_cpu` is a bijection on cells, so the arrays are taken
  post-decode);
* the global array `powernv_states` is a memory image `Nat → CpuidleState`;
  a store `powernv_states[nr] = s` is a pointwise function update recorded
  together with the written index, so out-of-bounds stores stay observable;
* the latency property is fetched with a NULL length pointer in the C code,
  so its length is never consulted; a read `idle_state_latency[i]` is
  modelled as `List.getD lat i 0` (the fallback 0 stands for the bytes
  behind the property and is never exercised by a theorem below);
* the wake-control register (LPCR) is threaded explicitly through
  `fastsleep_loop`, and the hardware sleep/idle primitives are recorded as
  events, since they do not touch LPCR themselves.
-/

/-- The `enter` function pointer of a `struct cpuidle_state`, as a tagged
kind; `noEnter` stands for a NULL pointer (unpopulated slot). -/
inductive EnterKind
  | noEnter
  | snoozeEnter
  | napEnter
  | fastsleepEnter
  deriving DecidableEq

/-- The fields of `struct cpuidle_state` that this driver reads or writes. -/
structure CpuidleState where
  name : String
  desc : String
  flags : Nat
  exit_latency : Nat
  target_residency : Nat
  enter : EnterKind
  disabled : Bool
  deriving DecidableEq

/-- `#define MAX_POWERNV_IDLE_STATES 8` -/
def MAX_POWERNV_IDLE_STATES : Nat := 8

/-- `#define IDLE_USE_INST_NAP 0x00010000` -/
def IDLE_USE_INST_NAP : Nat := 0x00010000

/-- `#define IDLE_USE_INST_SLEEP 0x00020000` -/
def IDLE_USE_INST_SLEEP : Nat := 0x00020000

/-- `CPUIDLE_FLAG_TIME_VALID` from `linux/cpuidle.h`. -/
def CPUIDLE_FLAG_TIME_VALID : Nat := 0x01

/-- `CPUIDLE_FLAG_TIMER_STOP` from `linux/cpuidle.h`. -/
def CPUIDLE_FLAG_TIMER_STOP : Nat := 0x04

/-- The all-zero slot of the static array (C zero initialisation). -/
def emptyState : CpuidleState :=
  { name := "", desc := "", flags := 0, exit_latency := 0,
    target_residency := 0, enter := .noEnter, disabled := false }

instance : Inhabited CpuidleState := ⟨emptyState⟩

/-- Static entry 0 of `powernv_states` (Snooze). -/
def snoozeState : CpuidleState :=
  { name := "snooze", desc := "snooze", flags := CPUIDLE_FLAG_TIME_VALID,
    exit_latency := 0, target_residency := 0, enter := .snoozeEnter,
    disabled := false }

/-- Static entry 1 of `powernv_states` (NAP). -/
def napStaticState : CpuidleState :=
  { name := "NAP", desc := "NAP", flags := CPUIDLE_FLAG_TIME_VALID,
    exit_latency := 10, target_residency := 100, enter := .napEnter,
    disabled := false }

/-- Static entry 2 of `powernv_states` (Fastsleep). -/
def fastsleepStaticState : CpuidleState :=
  { name := "fastsleep", desc := "fastsleep",
    flags := CPUIDLE_FLAG_TIME_VALID,
    exit_latency := 10, target_residency := 100, enter := .fastsleepEnter,
    disabled := false }

/-- Initial memory image of the static array
`static struct cpuidle_state powernv_states[MAX_POWERNV_IDLE_STATES]`:
three initialised entries, remaining slots zeroed. -/
def powernv_states : Nat → CpuidleState := fun i =>
  if i = 0 then snoozeState
  else if i = 1 then napStaticState
  else if i = 2 then fastsleepStaticState
  else emptyState

/-- The descriptor stored by the `IDLE_USE_INST_NAP` branch of
`powernv_add_idle_states` for a decoded latency cell `latency_ns`. -/
def napDTState (latency_ns : Nat) : CpuidleState :=
  { name := "Nap", desc := "Nap", flags := CPUIDLE_FLAG_TIME_VALID,
    exit_latency := latency_ns / 1000,
    target_residency := latency_ns / 100,
    enter := .napEnter, disabled := false }

/-- The descriptor stored by the `IDLE_USE_INST_SLEEP` branch of
`powernv_add_idle_states` for a decoded latency cell `latency_ns`. -/
def fastsleepDTState (latency_ns : Nat) : CpuidleState :=
  { name := "FastSleep", desc := "FastSleep",
    flags := CPUIDLE_FLAG_TIME_VALID ||| CPUIDLE_FLAG_TIMER_STOP,
    exit_latency := latency_ns / 1000,
    target_residency := latency_ns / 100,
    enter := .fastsleepEnter, disabled := false }

/-- Probe state: the memory image of `powernv_states`, the running counter
`nr_idle_states`, and the list of array indices written so far, in order. -/
structure ProbeSt where
  tbl : Nat → CpuidleState
  nr : Nat
  ws : List Nat

/-- Pointwise store into the array image. -/
def writeSlot (tbl : Nat → CpuidleState) (i : Nat) (s : CpuidleState) :
    Nat → CpuidleState :=
  fun j => if j = i then s else tbl j

/-- `powernv_states[nr_idle_states] = s; nr_idle_states++`, with the
written index recorded. -/
def writeState (st : ProbeSt) (s : CpuidleState) : ProbeSt :=
  { tbl := writeSlot st.tbl st.nr s, nr := st.nr + 1, ws := st.ws ++ [st.nr] }

/-- One iteration of the probe loop body: test the NAP bit, then the SLEEP
bit, appending a descriptor for each set bit (both may fire). -/
def probeStep (flagsWord latency_ns : Nat) (st : ProbeSt) : ProbeSt :=
  let st1 := if flagsWord &&& IDLE_USE_INST_NAP ≠ 0
             then writeState st (napDTState latency_ns) else st
  if flagsWord &&& IDLE_USE_INST_SLEEP ≠ 0
  then writeState st1 (fastsleepDTState latency_ns) else st1

/-- The `for (i = 0; i < dt_idle_states; i++)` loop of
`powernv_add_idle_states`: `fl` is the remaining suffix of the decoded
flags array, `i` the current index, `latRead` the memory read
`be32_to_cpu(idle_state_latency[i])`. -/
def probeLoop (latRead : Nat → Nat) : List Nat → Nat → ProbeSt → ProbeSt
  | [], _, st => st
  | f :: rest, i, st => probeLoop latRead rest (i + 1) (probeStep f (latRead i) st)

/-- `powernv_add_idle_states`. `power_mgt` is whether the
`/ibm,opal/power-mgt` node was found; `idle_state_flags` and
`idle_state_latency` are the two properties (`none` = missing). The early
returns leave the table untouched with `nr_idle_states = 1` (Snooze);
otherwise the loop runs over `dt_idle_states = len_flags / sizeof(u32)`
entries, i.e. the length of the flags array. -/
def powernv_add_idle_states (power_mgt : Bool)
    (idle_state_flags : Option (List Nat))
    (idle_state_latency : Option (List Nat))
    (init : Nat → CpuidleState) : ProbeSt :=
  match power_mgt, idle_state_flags, idle_state_latency with
  | false, _, _ => { tbl := init, nr := 1, ws := [] }
  | true, none, _ => { tbl := init, nr := 1, ws := [] }
  | true, some _, none => { tbl := init, nr := 1, ws := [] }
  | true, some fl, some lat =>
      probeLoop (fun i => lat.getD i 0) fl 0 { tbl := init, nr := 1, ws := [] }

/- ===== Analysis-side definitions for the probe ===== -/

/-- The descriptors appended by one loop iteration with flag word `f` and
latency cell `l` (zero, one or two of them). -/
def chunk (f l : Nat) : List CpuidleState :=
  (if f &&& IDLE_USE_INST_NAP ≠ 0 then [napDTState l] else []) ++
  (if f &&& IDLE_USE_INST_SLEEP ≠ 0 then [fastsleepDTState l] else [])

/-- The (flag word, latency cell) pairs consumed by the loop starting at
index `i`. -/
def pairsFrom (latRead : Nat → Nat) : List Nat → Nat → List (Nat × Nat)
  | [], _ => []
  | f :: rest, i => (f, latRead i) :: pairsFrom latRead rest (i + 1)

/-- All descriptors the loop appends, in order. -/
def recognizedStates : List (Nat × Nat) → List CpuidleState
  | [] => []
  | (f, l) :: rest => chunk f l ++ recognizedStates rest

/-- Number of recognized capability bits across a flags array (each flag
word contributes one per set NAP/SLEEP bit). -/
def recognizedCount : List Nat → Nat
  | [] => 0
  | f :: rest =>
      (if f &&& IDLE_USE_INST_NAP ≠ 0 then 1 else 0) +
      (if f &&& IDLE_USE_INST_SLEEP ≠ 0 then 1 else 0) +
      recognizedCount rest

/-- Sequential append of a list of descriptors into the probe state. -/
def writeMany : List CpuidleState → ProbeSt → ProbeSt
  | [], st => st
  | s :: rest, st => writeMany rest (writeState st s)

/- ===== Selector: get_snooze_timeout ===== -/

/-- The scan loop of `get_snooze_timeout`: `states` is the remaining
suffix `drv->states[i..]`, `i` the current absolute index into
`dev->states_usage`; the first state with neither `s->disabled` nor
`su->disable` set yields `s->target_residency * tb_ticks_per_usec`. -/
def snoozeScan (tb : Nat) (usage : Nat → Bool) :
    List CpuidleState → Nat → Option Nat
  | [], _ => none
  | s :: rest, i =>
      if s.disabled || usage i then snoozeScan tb usage rest (i + 1)
      else some (s.target_residency * tb)

/-- `get_snooze_timeout(dev, drv, index)`. `en` is the global
`snooze_timeout_en`, `defT` the global `default_snooze_timeout`, `tb` the
platform constant `tb_ticks_per_usec`, `states` the driver table
(`drv->state_count` = its length) and `usage` the per-device
`states_usage[i].disable` flags. -/
def get_snooze_timeout (en : Bool) (defT tb : Nat)
    (states : List CpuidleState) (usage : Nat → Bool) (index : Nat) : Nat :=
  if en = false then defT
  else
    match snoozeScan tb usage (states.drop (index + 1)) (index + 1) with
    | some v => v
    | none => defT

/-- Claim-side scan, following the spec's words: the first state at a
position strictly greater than `index`, in table order, whose enable flag
is set (neither driver- nor device-disabled). -/
def firstEnabledFrom (usage : Nat → Bool) :
    List CpuidleState → Nat → Option CpuidleState
  | [], _ => none
  | s :: rest, i =>
      if s.disabled || usage i then firstEnabledFrom usage rest (i + 1)
      else some s

/-- Claim-side value, following the spec's words: the `target_residency`
of the nearest subsequent enabled state, if any. -/
def specFirstEnabledResidency (states : List CpuidleState)
    (usage : Nat → Bool) (index : Nat) : Option Nat :=
  (firstEnabledFrom usage (states.drop (index + 1)) (index + 1)).map
    CpuidleState.target_residency

/- ===== Executor: the three entry routines ===== -/

/-- `SYSTEM_RUNNING` from `linux/kernel.h` (`SYSTEM_BOOTING = 0` precedes
it). -/
def SYSTEM_RUNNING : Nat := 1

/-- `LPCR_MER` (mediated external exception) from `asm/reg.h`. -/
def LPCR_MER : Nat := 0x00000800

/-- `LPCR_PECE` (powersave exit cause enable mask) from `asm/reg.h`. -/
def LPCR_PECE : Nat := 0x00007000

/-- `LPCR_PECE0` (external exceptions can cause exit) from `asm/reg.h`. -/
def LPCR_PECE0 : Nat := 0x00004000

/-- All bits of an `unsigned long` (64-bit). -/
def U64_MASK : Nat := 2 ^ 64 - 1

/-- Result of `fastsleep_loop`: returned index, final LPCR value, the
values written to LPCR by `mtspr(SPRN_LPCR, ...)` in order, and whether
`power7_sleep()` was executed. -/
structure FastsleepResult where
  ret : Nat
  reg : Nat
  writes : List Nat
  slept : Bool
  deriving DecidableEq

/-- `fastsleep_loop(dev, drv, index)`. `system_state` is the global
lifecycle phase, `reg` the LPCR value at entry (`mfspr(SPRN_LPCR)`). -/
def fastsleep_loop (system_state : Nat) (index : Nat) (reg : Nat) :
    FastsleepResult :=
  let old_lpcr := reg
  if system_state < SYSTEM_RUNNING then
    { ret := index, reg := reg, writes := [], slept := false }
  else
    let new_lpcr := (old_lpcr &&& (U64_MASK ^^^ (LPCR_MER ||| LPCR_PECE)))
                      ||| LPCR_PECE0
    { ret := index, reg := old_lpcr, writes := [new_lpcr, old_lpcr],
      slept := true }

/-- Result of `nap_loop`: returned index and whether the
runlatch-off / `power7_idle()` / runlatch-on sequence ran. -/
structure NapResult where
  ret : Nat
  idled : Bool
  deriving DecidableEq

/-- `nap_loop(dev, drv, index)`. -/
def nap_loop (index : Nat) : NapResult :=
  { ret := index, idled := true }

/-- The `while (!need_resched())` spin of `snooze_loop`, with explicit
fuel: returns the iteration at which `need_resched()` first held, or
`none` when the fuel ran out before that (the C loop simply keeps
spinning). -/
def snoozeSpin (need_resched : Nat → Bool) : Nat → Nat → Option Nat
  | 0, _ => none
  | fuel + 1, t => if need_resched t then some t else snoozeSpin need_resched fuel (t + 1)

/-- Result of a completed `snooze_loop`: returned index, the computed
`snooze_exit_time`, the final `TIF_POLLING_NRFLAG` value, and how many
spin iterations ran. -/
structure SnoozeResult where
  ret : Nat
  snooze_exit_time : Nat
  polling_flag : Bool
  iterations : Nat
  deriving DecidableEq

/-- `snooze_loop(dev, drv, index)`. `now` is `get_tb()`; the remaining
arguments feed `get_snooze_timeout` exactly as in the C code. `none`
means the spin never observed `need_resched()` within the given fuel
(the C function has not returned yet). -/
def snooze_loop (en : Bool) (defT tb : Nat) (states : List CpuidleState)
    (usage : Nat → Bool) (now : Nat) (need_resched : Nat → Bool)
    (fuel : Nat) (index : Nat) : Option SnoozeResult :=
  match snoozeSpin need_resched fuel 0 with
  | none => none
  | some iters =>
      some { ret := index,
             snooze_exit_time :=
               now + get_snooze_timeout en defT tb states usage index,
             polling_flag := false,
             iterations := iters }

/- ===== HotplugCoordinator: the cpu notifier ===== -/

/-- `CPU_ONLINE` from `linux/cpu.h`. -/
def CPU_ONLINE : Nat := 0x0002

/-- `CPU_DEAD` from `linux/cpu.h`. -/
def CPU_DEAD : Nat := 0x0007

/-- `CPU_TASKS_FROZEN` from `linux/cpu.h`. -/
def CPU_TASKS_FROZEN : Nat := 0x0010

/-- `CPU_ONLINE_FROZEN = CPU_ONLINE | CPU_TASKS_FROZEN`. -/
def CPU_ONLINE_FROZEN : Nat := CPU_ONLINE ||| CPU_TASKS_FROZEN

/-- `CPU_DEAD_FROZEN = CPU_DEAD | CPU_TASKS_FROZEN`. -/
def CPU_DEAD_FROZEN : Nat := CPU_DEAD ||| CPU_TASKS_FROZEN

/-- `NOTIFY_DONE` ("don't care") from `linux/notifier.h`. -/
def NOTIFY_DONE : Nat := 0x0000

/-- `NOTIFY_OK` from `linux/notifier.h`. -/
def NOTIFY_OK : Nat := 0x0001

/-- `NOTIFY_BAD` (`NOTIFY_STOP_MASK | 0x0002`) from `linux/notifier.h`. -/
def NOTIFY_BAD : Nat := 0x8002

/-- `powernv_cpuidle_add_cpu_notifier(n, action, hcpu)`. `hasDev` is
whether `per_cpu(cpuidle_devices, cpu)` is non-NULL, `hasDriver` whether
`cpuidle_get_driver()` is non-NULL, `enabled` the per-core participation
flags mutated by `cpuidle_enable_device` / `cpuidle_disable_device`.
Returns the notifier verdict and the updated flags. -/
def powernv_cpuidle_add_cpu_notifier (hasDev : Nat → Bool)
    (hasDriver : Bool) (enabled : Nat → Bool) (action hotcpu : Nat) :
    Nat × (Nat → Bool) :=
  if hasDev hotcpu && hasDriver then
    if action = CPU_ONLINE ∨ action = CPU_ONLINE_FROZEN then
      (NOTIFY_OK, fun c => if c = hotcpu then true else enabled c)
    else if action = CPU_DEAD ∨ action = CPU_DEAD_FROZEN then
      (NOTIFY_OK, fun c => if c = hotcpu then false else enabled c)
    else
      (NOTIFY_DONE, enabled)
  else (NOTIFY_OK, enabled)

/- ===== Selector lemmas ===== -/

/-- The source scan agrees with the spec-side scan up to the
`* tb_ticks_per_usec` conversion. -/
theorem snoozeScan_eq_firstEnabled (tb : Nat) (usage : Nat → Bool)
    (l : List CpuidleState) : ∀ i, snoozeScan tb usage l i =
      (firstEnabledFrom usage l i).map (fun s => s.target_residency * tb) := by
  induction l with
  | nil => intro i; rfl
  | cons s rest ih =>
      intro i
      by_cases h : s.disabled || usage i <;>
        simp [snoozeScan, firstEnabledFrom, h, ih]

/- ===== Claim theorems (C1 - C5, C8, C9) ===== -/

/-- C1: the claimed capacity bound check does not exist. At the failing
input (four device-tree entries, each advertising both nap and sleep,
with a matching latency array) the probe counts 9 states and stores a
descriptor at array index 8 = `MAX_POWERNV_IDLE_STATES`, one slot past
the end of the 8-element `powernv_states` array — an out-of-bounds write
in the C code, with no reported condition. -/
theorem C1_no_bound_check_overflow :
    (powernv_add_idle_states true (some [0x30000, 0x30000, 0x30000, 0x30000])
        (some [1000, 2000, 3000, 4000]) powernv_states).nr = 9 ∧
    8 ∈ (powernv_add_idle_states true (some [0x30000, 0x30000, 0x30000, 0x30000])
        (some [1000, 2000, 3000, 4000]) powernv_states).ws ∧
    MAX_POWERNV_IDLE_STATES = 8 := by decide

/-- C2 counterexample: the claim also promises a 1-state table for
mismatched array lengths, but a flags array of length 1 with a latency
array of length 2 yields a 2-state table — the code never reads the
latency property's length. -/
theorem C2_mismatched_lengths_not_one_state :
    ([0x10000] : List Nat).length ≠ ([10000, 20000] : List Nat).length ∧
    (powernv_add_idle_states true (some [0x10000]) (some [10000, 20000])
        powernv_states).nr = 2 := by decide

/-- C2 amended: if the capability node is absent, or the flags property
is missing, or the latency property is missing, the probe returns exactly
one state (Snooze), writes no table slot, and does not fail (it is total);
mismatched array lengths are not detected. -/
theorem C2_missing_capability_one_state (pm : Bool)
    (fl lat : Option (List Nat))
    (h : pm = false ∨ fl = none ∨ lat = none) :
    (powernv_add_idle_states pm fl lat powernv_states).nr = 1 ∧
    (powernv_add_idle_states pm fl lat powernv_states).tbl = powernv_states ∧
    (powernv_add_idle_states pm fl lat powernv_states).ws = [] := by
  rcases h with h | h | h
  · subst h; exact ⟨rfl, rfl, rfl⟩
  · subst h
    cases pm
    · exact ⟨rfl, rfl, rfl⟩
    · exact ⟨rfl, rfl, rfl⟩
  · subst h
    cases pm
    · exact ⟨rfl, rfl, rfl⟩
    · cases fl
      · exact ⟨rfl, rfl, rfl⟩
      · exact ⟨rfl, rfl, rfl⟩

/-- Witness for the amended C2: missing flags property. -/
theorem C2_missing_capability_one_state_witness :
    (powernv_add_idle_states true none (some [1, 2]) powernv_states).nr = 1 ∧
    (powernv_add_idle_states true none (some [1, 2]) powernv_states).tbl =
      powernv_states ∧
    (powernv_add_idle_states true none (some [1, 2]) powernv_states).ws = [] :=
  C2_missing_capability_one_state true none (some [1, 2]) (Or.inr (Or.inl rfl))

/-- C3: DeepSleep entry/exit is a register round-trip: for every lifecycle
phase, index and starting LPCR value, `fastsleep_loop` leaves the
wake-control register equal to its pre-entry value (the guard path never
writes it; the sleep path restores the snapshot as its last write). -/
theorem C3_fastsleep_register_round_trip (system_state index reg : Nat) :
    (fastsleep_loop system_state index reg).reg = reg := by
  unfold fastsleep_loop
  split <;> rfl

/-- C4: with the lifecycle phase below running, `fastsleep_loop` returns
the same index, performs no LPCR write, does not execute the sleep
primitive, and leaves the register untouched. -/
theorem C4_fastsleep_guard_noop (system_state index reg : Nat)
    (h : system_state < SYSTEM_RUNNING) :
    (fastsleep_loop system_state index reg).ret = index ∧
    (fastsleep_loop system_state index reg).writes = [] ∧
    (fastsleep_loop system_state index reg).slept = false ∧
    (fastsleep_loop system_state index reg).reg = reg := by
  simp [fastsleep_loop, h]

/-- Witness for C4 at phase 0 (booting). -/
theorem C4_fastsleep_guard_noop_witness :
    (fastsleep_loop 0 5 42).ret = 5 ∧
    (fastsleep_loop 0 5 42).writes = [] ∧
    (fastsleep_loop 0 5 42).slept = false ∧
    (fastsleep_loop 0 5 42).reg = 42 :=
  C4_fastsleep_guard_noop 0 5 42 (by decide)

/-- C5 counterexample: with the timeout feature enabled, a table whose
first subsequent enabled state has `target_residency = 100`, and
`tb_ticks_per_usec = 2`, the code returns `100 * 2 = 200`, not the
state's `target_residency` of 100: the returned value is the residency
converted to timebase ticks. -/
theorem C5_returns_ticks_not_residency :
    specFirstEnabledResidency [snoozeState, napDTState 10000]
        (fun _ => false) 0 = some 100 ∧
    get_snooze_timeout true 777 2 [snoozeState, napDTState 10000]
        (fun _ => false) 0 = 200 ∧
    get_snooze_timeout true 777 2 [snoozeState, napDTState 10000]
        (fun _ => false) 0 ≠ 100 := by decide

/-- C5 amended: when `snooze_timeout_en` holds, `get_snooze_timeout`
returns the `target_residency` of the first state past `index` whose
driver and device disable flags are both clear, multiplied by
`tb_ticks_per_usec`, and the configured default when no such state
exists; when `snooze_timeout_en` is false it returns the default
unconditionally. -/
theorem C5_get_snooze_timeout_characterisation (en : Bool) (defT tb : Nat)
    (states : List CpuidleState) (usage : Nat → Bool) (index : Nat) :
    get_snooze_timeout en defT tb states usage index =
      if en then
        ((specFirstEnabledResidency states usage index).map (· * tb)).getD defT
      else defT := by
  cases en with
  | false => simp [get_snooze_timeout]
  | true =>
      unfold get_snooze_timeout specFirstEnabledResidency
      rw [snoozeScan_eq_firstEnabled]
      cases hF : firstEnabledFrom usage (states.drop (index + 1)) (index + 1) <;>
        simp [hF]

/-- C8: each of the three entry routines returns exactly the index it was
given, on every return path: `snooze_loop` whenever its spin completes,
`nap_loop` always, `fastsleep_loop` on both the guard path and the sleep
path. -/
theorem C8_entry_routines_return_same_index
    (en : Bool) (defT tb : Nat) (states : List CpuidleState)
    (usage : Nat → Bool) (now : Nat) (need_resched : Nat → Bool)
    (fuel index : Nat) (r : SnoozeResult) (system_state reg : Nat)
    (h : snooze_loop en defT tb states usage now need_resched fuel index =
          some r) :
    r.ret = index ∧
    (nap_loop index).ret = index ∧
    (fastsleep_loop system_state index reg).ret = index := by
  refine ⟨?_, rfl, ?_⟩
  · unfold snooze_loop at h
    cases hs : snoozeSpin need_resched fuel 0 with
    | none => rw [hs] at h; cases h
    | some t =>
        rw [hs] at h
        injection h with h2
        rw [← h2]
  · unfold fastsleep_loop
    split <;> rfl

/-- Witness for C8: a snooze spin that wakes immediately, index 5. -/
theorem C8_entry_routines_return_same_index_witness :
    ({ ret := 5, snooze_exit_time := 0, polling_flag := false,
       iterations := 0 } : SnoozeResult).ret = 5 ∧
    (nap_loop 5).ret = 5 ∧
    (fastsleep_loop 0 5 42).ret = 5 :=
  C8_entry_routines_return_same_index false 0 0 [] (fun _ => false) 0
    (fun _ => true) 1 5 _ 0 42 rfl

/-- C9: for every event id other than the online/dead pairs (frozen
variants included), the notifier leaves every core's enable state
unchanged and acknowledges the event (`NOTIFY_DONE` when a device and
driver are present, `NOTIFY_OK` otherwise) — never an error verdict. -/
theorem C9_notifier_other_events_noop (hasDev : Nat → Bool)
    (hasDriver : Bool) (enabled : Nat → Bool) (action hotcpu : Nat)
    (h1 : action ≠ CPU_ONLINE) (h2 : action ≠ CPU_ONLINE_FROZEN)
    (h3 : action ≠ CPU_DEAD) (h4 : action ≠ CPU_DEAD_FROZEN) :
    (powernv_cpuidle_add_cpu_notifier hasDev hasDriver enabled action
        hotcpu).2 = enabled ∧
    ((powernv_cpuidle_add_cpu_notifier hasDev hasDriver enabled action
        hotcpu).1 = NOTIFY_DONE ∨
     (powernv_cpuidle_add_cpu_notifier hasDev hasDriver enabled action
        hotcpu).1 = NOTIFY_OK) := by
  by_cases hd1 : hasDev hotcpu = true
  · by_cases hd2 : hasDriver = true
    · simp [powernv_cpuidle_add_cpu_notifier, hd1, hd2, h1, h2, h3, h4]
    · simp [powernv_cpuidle_add_cpu_notifier, hd1, hd2]
  · simp [powernv_cpuidle_add_cpu_notifier, hd1]

/-- Witness for C9: `CPU_UP_PREPARE` (= 3) with device and driver
present. -/
theorem C9_notifier_other_events_noop_witness :
    (powernv_cpuidle_add_cpu_notifier (fun _ => true) true
        (fun _ => false) 3 0).2 = (fun _ => false) ∧
    ((powernv_cpuidle_add_cpu_notifier (fun _ => true) true
        (fun _ => false) 3 0).1 = NOTIFY_DONE ∨
     (powernv_cpuidle_add_cpu_notifier (fun _ => true) true
        (fun _ => false) 3 0).1 = NOTIFY_OK) :=
  C9_notifier_other_events_noop (fun _ => true) true (fun _ => false) 3 0
    (by decide) (by decide) (by decide) (by decide)

/- ===== Probe structural lemmas ===== -/

/-- One loop iteration appends exactly its `chunk`. -/
theorem probeStep_eq_writeMany (f l : Nat) (st : ProbeSt) :
    probeStep f l st = writeMany (chunk f l) st := by
  unfold probeStep chunk
  by_cases h1 : f &&& IDLE_USE_INST_NAP ≠ 0 <;>
    by_cases h2 : f &&& IDLE_USE_INST_SLEEP ≠ 0 <;>
      simp [h1, h2, writeMany]

theorem writeMany_append (a b : List CpuidleState) :
    ∀ st : ProbeSt, writeMany (a ++ b) st = writeMany b (writeMany a st) := by
  induction a with
  | nil => intro st; rfl
  | cons s rest ih =>
      intro st
      simp only [List.cons_append, writeMany]
      exact ih (writeState st s)

/-- The probe loop is the sequential append of all recognized
descriptors. -/
theorem probeLoop_eq_writeMany (latRead : Nat → Nat) (fl : List Nat) :
    ∀ (i : Nat) (st : ProbeSt),
      probeLoop latRead fl i st =
        writeMany (recognizedStates (pairsFrom latRead fl i)) st := by
  induction fl with
  | nil => intro i st; rfl
  | cons f rest ih =>
      intro i st
      simp only [probeLoop, pairsFrom, recognizedStates]
      rw [ih, probeStep_eq_writeMany, writeMany_append]

theorem writeMany_nr (l : List CpuidleState) :
    ∀ st : ProbeSt, (writeMany l st).nr = st.nr + l.length := by
  induction l with
  | nil => intro st; simp [writeMany]
  | cons s rest ih =>
      intro st
      simp only [writeMany, List.length_cons, ih]
      simp [writeState]
      omega

/-- Memory image after appending `l` starting at slot `st.nr`: positions
`st.nr ≤ j < st.nr + l.length` hold the appended descriptors, everything
else is untouched. -/
theorem writeMany_tbl (l : List CpuidleState) :
    ∀ (st : ProbeSt) (j : Nat),
      (writeMany l st).tbl j =
        if st.nr ≤ j ∧ j < st.nr + l.length then l.getD (j - st.nr) emptyState
        else st.tbl j := by
  induction l with
  | nil =>
      intro st j
      simp only [writeMany, List.length_nil, Nat.add_zero]
      rw [if_neg (by omega)]
  | cons s rest ih =>
      intro st j
      simp only [writeMany, List.length_cons]
      rw [ih]
      have hnr : (writeState st s).nr = st.nr + 1 := rfl
      have htbl : (writeState st s).tbl j =
          if j = st.nr then s else st.tbl j := rfl
      rw [hnr, htbl]
      by_cases hA : st.nr + 1 ≤ j ∧ j < st.nr + 1 + rest.length
      · rw [if_pos hA,
          if_pos (show st.nr ≤ j ∧ j < st.nr + (rest.length + 1) by omega)]
        have h : j - st.nr = (j - (st.nr + 1)) + 1 := by omega
        rw [h, List.getD_cons_succ]
      · rw [if_neg hA]
        by_cases hB : j = st.nr
        · rw [if_pos hB,
            if_pos (show st.nr ≤ j ∧ j < st.nr + (rest.length + 1) by omega)]
          subst hB
          simp
        · rw [if_neg hB,
            if_neg (show ¬(st.nr ≤ j ∧ j < st.nr + (rest.length + 1)) by omega)]

theorem chunk_length (f l : Nat) :
    (chunk f l).length =
      (if f &&& IDLE_USE_INST_NAP ≠ 0 then 1 else 0) +
      (if f &&& IDLE_USE_INST_SLEEP ≠ 0 then 1 else 0) := by
  unfold chunk
  by_cases h1 : f &&& IDLE_USE_INST_NAP ≠ 0 <;>
    by_cases h2 : f &&& IDLE_USE_INST_SLEEP ≠ 0 <;> simp [h1, h2]

theorem recognizedStates_length (latRead : Nat → Nat) (fl : List Nat) :
    ∀ i, (recognizedStates (pairsFrom latRead fl i)).length =
      recognizedCount fl := by
  induction fl with
  | nil => intro i; rfl
  | cons f rest ih =>
      intro i
      simp only [pairsFrom, recognizedStates, recognizedCount,
        List.length_append, chunk_length, ih]

/-- Every element of a chunk is the nap or the fastsleep descriptor for
that latency cell. -/
theorem mem_chunk (f l : Nat) (s : CpuidleState) (hs : s ∈ chunk f l) :
    s = napDTState l ∨ s = fastsleepDTState l := by
  unfold chunk at hs
  by_cases h1 : f &&& IDLE_USE_INST_NAP ≠ 0
  · by_cases h2 : f &&& IDLE_USE_INST_SLEEP ≠ 0
    · simp [h1, h2] at hs
      exact hs
    · simp [h1, h2] at hs
      exact Or.inl hs
  · by_cases h2 : f &&& IDLE_USE_INST_SLEEP ≠ 0
    · simp [h1, h2] at hs
      exact Or.inr hs
    · simp [h1, h2] at hs

/-- Under a latency read that is non-decreasing over the consumed index
range, every recognized descriptor's exit latency is at least the one
derived from the first consumed cell. -/
theorem recognizedStates_lower_bound (latRead : Nat → Nat) :
    ∀ (fl : List Nat) (i : Nat),
      (∀ a b, i ≤ a → a ≤ b → b < i + fl.length → latRead a ≤ latRead b) →
      ∀ s ∈ recognizedStates (pairsFrom latRead fl i),
        latRead i / 1000 ≤ s.exit_latency := by
  intro fl
  induction fl with
  | nil => intro i _ s hs; simp [pairsFrom, recognizedStates] at hs
  | cons f rest ih =>
      intro i hm s hs
      simp only [List.length_cons] at hm
      simp only [pairsFrom, recognizedStates] at hs
      rcases List.mem_append.1 hs with h | h
      · rcases mem_chunk f (latRead i) s h with rfl | rfl
        · exact Nat.le_refl _
        · exact Nat.le_refl _
      · have hrest_ne : rest ≠ [] := by
          intro he
          subst he
          simp [pairsFrom, recognizedStates] at h
        have hpos : 0 < rest.length := List.length_pos.2 hrest_ne
        have hstep : latRead i ≤ latRead (i + 1) :=
          hm i (i + 1) (Nat.le_refl i) (Nat.le_succ i) (by omega)
        have ihres := ih (i + 1)
          (fun a b ha hab hb => hm a b (by omega) hab (by omega)) s h
        exact le_trans (Nat.div_le_div_right hstep) ihres

/-- Under a latency read that is non-decreasing over the consumed index
range, the recognized descriptors have non-decreasing exit latency. -/
theorem recognizedStates_chain (latRead : Nat → Nat) :
    ∀ (fl : List Nat) (i : Nat),
      (∀ a b, i ≤ a → a ≤ b → b < i + fl.length → latRead a ≤ latRead b) →
      List.Chain' (fun x y => x.exit_latency ≤ y.exit_latency)
        (recognizedStates (pairsFrom latRead fl i)) := by
  intro fl
  induction fl with
  | nil => intro i _; simp [pairsFrom, recognizedStates]
  | cons f rest ih =>
      intro i hm
      simp only [List.length_cons] at hm
      simp only [pairsFrom, recognizedStates]
      apply List.Chain'.append
      · unfold chunk
        by_cases h1 : f &&& IDLE_USE_INST_NAP ≠ 0
        · by_cases h2 : f &&& IDLE_USE_INST_SLEEP ≠ 0
          · simp [h1, h2, List.chain'_pair]
            exact Nat.le_refl _
          · simp [h1, h2]
        · by_cases h2 : f &&& IDLE_USE_INST_SLEEP ≠ 0 <;> simp [h1, h2]
      · exact ih (i + 1) (fun a b ha hab hb => hm a b (by omega) hab (by omega))
      · intro x hx y hy
        have hxc : x ∈ chunk f (latRead i) := by
          obtain ⟨hne0, hxeq⟩ := List.mem_getLast?_eq_getLast hx
          rw [hxeq]
          exact List.getLast_mem hne0
        have hyc : y ∈ recognizedStates (pairsFrom latRead rest (i + 1)) :=
          List.mem_of_mem_head? hy
        have hrest_ne : rest ≠ [] := by
          intro he
          subst he
          simp [pairsFrom, recognizedStates] at hyc
        have hpos : 0 < rest.length := List.length_pos.2 hrest_ne
        have hstep : latRead i ≤ latRead (i + 1) :=
          hm i (i + 1) (Nat.le_refl i) (Nat.le_succ i) (by omega)
        have hlb := recognizedStates_lower_bound latRead rest (i + 1)
          (fun a b ha hab hb => hm a b (by omega) hab (by omega)) y hyc
        have hx1000 : x.exit_latency = latRead i / 1000 := by
          rcases mem_chunk f (latRead i) x hxc with rfl | rfl
          · rfl
          · rfl
        rw [hx1000]
        exact le_trans (Nat.div_le_div_right hstep) hlb

/-- The probe's state count: 1 (Snooze) plus one per recognized bit. -/
theorem probe_nr (fl lat : List Nat) (init : Nat → CpuidleState) :
    (powernv_add_idle_states true (some fl) (some lat) init).nr =
      1 + recognizedCount fl := by
  show (probeLoop (fun i => lat.getD i 0) fl 0
      { tbl := init, nr := 1, ws := [] }).nr = 1 + recognizedCount fl
  rw [probeLoop_eq_writeMany, writeMany_nr, recognizedStates_length]

/-- The memory image after a successful probe, as one conditional. -/
theorem probe_tbl_if (fl lat : List Nat) (init : Nat → CpuidleState)
    (j : Nat) :
    (powernv_add_idle_states true (some fl) (some lat) init).tbl j =
      if 1 ≤ j ∧ j < 1 + recognizedCount fl then
        (recognizedStates (pairsFrom (fun i => lat.getD i 0) fl 0)).getD
          (j - 1) emptyState
      else init j := by
  have h := writeMany_tbl
    (recognizedStates (pairsFrom (fun i => lat.getD i 0) fl 0))
    { tbl := init, nr := 1, ws := [] } j
  rw [recognizedStates_length] at h
  show (probeLoop (fun i => lat.getD i 0) fl 0
      { tbl := init, nr := 1, ws := [] }).tbl j = _
  rw [probeLoop_eq_writeMany]
  exact h

/-- Slot 0 is never written by the loop. -/
theorem probe_tbl_zero (fl lat : List Nat) (init : Nat → CpuidleState) :
    (powernv_add_idle_states true (some fl) (some lat) init).tbl 0 = init 0 := by
  rw [probe_tbl_if, if_neg (by omega)]

/-- A populated non-Snooze slot holds the corresponding recognized
descriptor. -/
theorem probe_tbl_pos (fl lat : List Nat) (init : Nat → CpuidleState)
    (j : Nat) (h1 : 1 ≤ j) (h2 : j < 1 + recognizedCount fl) :
    (powernv_add_idle_states true (some fl) (some lat) init).tbl j =
      (recognizedStates (pairsFrom (fun i => lat.getD i 0) fl 0)).getD
        (j - 1) emptyState := by
  rw [probe_tbl_if, if_pos ⟨h1, h2⟩]

/- ===== Claim C6 ===== -/

/-- C6 counterexample: a well-formed, within-capacity capability input
(two entries, equal lengths, nap bit only) whose latency array is
decreasing produces a table whose exit latencies are NOT non-decreasing:
state 1 has exit latency 20, state 2 has exit latency 5 — the probe keeps
device-tree order and never sorts. -/
theorem C6_unsorted_latency_counterexample :
    ([0x10000, 0x10000] : List Nat).length = ([20000, 5000] : List Nat).length ∧
    1 + recognizedCount [0x10000, 0x10000] ≤ MAX_POWERNV_IDLE_STATES ∧
    (powernv_add_idle_states true (some [0x10000, 0x10000])
        (some [20000, 5000]) powernv_states).nr = 3 ∧
    ((powernv_add_idle_states true (some [0x10000, 0x10000])
        (some [20000, 5000]) powernv_states).tbl 1).exit_latency = 20 ∧
    ((powernv_add_idle_states true (some [0x10000, 0x10000])
        (some [20000, 5000]) powernv_states).tbl 2).exit_latency = 5 ∧
    ¬(((powernv_add_idle_states true (some [0x10000, 0x10000])
        (some [20000, 5000]) powernv_states).tbl 1).exit_latency ≤
      ((powernv_add_idle_states true (some [0x10000, 0x10000])
        (some [20000, 5000]) powernv_states).tbl 2).exit_latency) := by
  decide

/-- C6 amended: for a well-formed capability input (equal array lengths)
whose recognized-state count fits within capacity, the table has
`state_count = 1 + k` where `k` counts the recognized capability bits
(a flag word with both bits set contributes two), and — provided the
platform latency array is itself non-decreasing, since the probe keeps
device-tree order and never sorts — `exit_latency` is non-decreasing over
the populated indices. -/
theorem C6_state_count_and_monotonicity (fl lat : List Nat) (j : Nat)
    (hlen : fl.length = lat.length)
    (hfit : 1 + recognizedCount fl ≤ MAX_POWERNV_IDLE_STATES)
    (hsort : List.Pairwise (· ≤ ·) lat)
    (hj : j + 1 <
      (powernv_add_idle_states true (some fl) (some lat) powernv_states).nr) :
    (powernv_add_idle_states true (some fl) (some lat) powernv_states).nr =
      1 + recognizedCount fl ∧
    ((powernv_add_idle_states true (some fl) (some lat)
        powernv_states).tbl j).exit_latency ≤
      ((powernv_add_idle_states true (some fl) (some lat)
        powernv_states).tbl (j + 1)).exit_latency := by
  have hm : ∀ a b, 0 ≤ a → a ≤ b → b < 0 + fl.length →
      lat.getD a 0 ≤ lat.getD b 0 := by
    intro a b _ hab hb
    rcases Nat.eq_or_lt_of_le hab with rfl | hlt
    · exact Nat.le_refl _
    · have hb' : b < lat.length := by omega
      have ha' : a < lat.length := by omega
      rw [List.getD_eq_get lat 0 ha', List.getD_eq_get lat 0 hb']
      exact List.pairwise_iff_get.1 hsort ⟨a, ha'⟩ ⟨b, hb'⟩ hlt
  rw [probe_nr] at hj
  refine ⟨probe_nr fl lat powernv_states, ?_⟩
  have hchain := recognizedStates_chain (fun i => lat.getD i 0) fl 0 hm
  match j with
  | 0 =>
      rw [probe_tbl_zero]
      show (powernv_states 0).exit_latency ≤ _
      exact Nat.zero_le _
  | Nat.succ j =>
      rw [probe_tbl_pos fl lat powernv_states (j + 1) (by omega) (by omega),
        probe_tbl_pos fl lat powernv_states (j + 1 + 1) (by omega) (by omega)]
      simp only [Nat.add_sub_cancel]
      have hlenr : j + 1 < (recognizedStates
          (pairsFrom (fun i => lat.getD i 0) fl 0)).length := by
        rw [recognizedStates_length]
        omega
      rw [List.getD_eq_get _ emptyState (by omega), List.getD_eq_get _ emptyState hlenr]
      exact List.chain'_iff_get.1 hchain j (by omega)

/-- Witness for the amended C6: nap entry at 1000ns then sleep entry at
3000ns, adjacent pair (j = 1). -/
theorem C6_state_count_and_monotonicity_witness :
    (powernv_add_idle_states true (some [0x10000, 0x20000])
        (some [1000, 3000]) powernv_states).nr =
      1 + recognizedCount [0x10000, 0x20000] ∧
    ((powernv_add_idle_states true (some [0x10000, 0x20000])
        (some [1000, 3000]) powernv_states).tbl 1).exit_latency ≤
      ((powernv_add_idle_states true (some [0x10000, 0x20000])
        (some [1000, 3000]) powernv_states).tbl 2).exit_latency :=
  C6_state_count_and_monotonicity [0x10000, 0x20000] [1000, 3000] 1
    (by decide) (by decide) (by decide) (by decide)

/- ===== Positional decomposition of the probe output ===== -/

theorem pairsFrom_append (latRead : Nat → Nat) (a b : List Nat) :
    ∀ i, pairsFrom latRead (a ++ b) i =
      pairsFrom latRead a i ++ pairsFrom latRead b (i + a.length) := by
  induction a with
  | nil => intro i; simp [pairsFrom]
  | cons f rest ih =>
      intro i
      simp only [List.cons_append, pairsFrom, List.length_cons, List.append_eq]
      rw [ih (i + 1), show i + 1 + rest.length = i + (rest.length + 1) from by omega]

theorem recognizedStates_append (a b : List (Nat × Nat)) :
    recognizedStates (a ++ b) = recognizedStates a ++ recognizedStates b := by
  induction a with
  | nil => rfl
  | cons p rest ih =>
      cases p
      simp [recognizedStates, ih]

theorem recognizedCount_append (a b : List Nat) :
    recognizedCount (a ++ b) = recognizedCount a + recognizedCount b := by
  induction a with
  | nil => simp [recognizedCount]
  | cons f rest ih =>
      simp only [List.cons_append, recognizedCount, List.append_eq, ih,
        Nat.add_assoc]

/-- A flags array splits at any in-range index into prefix, the indexed
word, and suffix. -/
theorem flags_split (fl : List Nat) (i : Nat) (hi : i < fl.length) :
    fl = fl.take i ++ fl.getD i 0 :: fl.drop (i + 1) := by
  conv_lhs => rw [← List.take_append_drop i fl]
  rw [List.drop_eq_getElem_cons hi, List.getD_eq_getElem fl 0 hi]

/-- The descriptors appended while processing flags index `i` sit at table
positions `1 + recognizedCount (fl.take i) + off`, `off` ranging over the
chunk for that entry. -/
theorem probe_descriptor_at (fl lat : List Nat) (i : Nat) (hi : i < fl.length)
    (off : Nat)
    (hoff : off < (chunk (fl.getD i 0) (lat.getD i 0)).length) :
    (powernv_add_idle_states true (some fl) (some lat) powernv_states).tbl
        (1 + recognizedCount (fl.take i) + off) =
      (chunk (fl.getD i 0) (lat.getD i 0)).getD off emptyState := by
  have hsplit := flags_split fl i hi
  have htake_len : (fl.take i).length = i := by
    rw [List.length_take]
    omega
  have hdecomp : recognizedStates (pairsFrom (fun k => lat.getD k 0) fl 0) =
      recognizedStates (pairsFrom (fun k => lat.getD k 0) (fl.take i) 0) ++
      (chunk (fl.getD i 0) (lat.getD i 0) ++
        recognizedStates (pairsFrom (fun k => lat.getD k 0)
          (fl.drop (i + 1)) (i + 1))) := by
    conv_lhs => rw [hsplit]
    rw [pairsFrom_append, recognizedStates_append, Nat.zero_add, htake_len]
    simp only [pairsFrom, recognizedStates]
  have hlenA : (recognizedStates (pairsFrom (fun k => lat.getD k 0)
      (fl.take i) 0)).length = recognizedCount (fl.take i) :=
    recognizedStates_length _ (fl.take i) 0
  have hcount : recognizedCount fl =
      recognizedCount (fl.take i) +
        ((chunk (fl.getD i 0) (lat.getD i 0)).length +
          recognizedCount (fl.drop (i + 1))) := by
    conv_lhs => rw [hsplit]
    rw [recognizedCount_append, chunk_length]
    simp only [recognizedCount, Nat.add_assoc]
  rw [probe_tbl_pos fl lat powernv_states
      (1 + recognizedCount (fl.take i) + off) (by omega) (by omega),
    show 1 + recognizedCount (fl.take i) + off - 1 =
      recognizedCount (fl.take i) + off from by omega,
    hdecomp,
    List.getD_append_right _ _ _ _ (by rw [hlenA]; omega),
    show recognizedCount (fl.take i) + off -
      (recognizedStates (pairsFrom (fun k => lat.getD k 0)
        (fl.take i) 0)).length = off from by rw [hlenA]; omega,
    List.getD_append _ _ _ _ hoff]

theorem chunk_getD_nap (f l : Nat) (h : f &&& IDLE_USE_INST_NAP ≠ 0) :
    (chunk f l).getD 0 emptyState = napDTState l := by
  unfold chunk
  rw [if_pos h]
  by_cases h2 : f &&& IDLE_USE_INST_SLEEP ≠ 0 <;> simp [h2]

theorem chunk_getD_both (f l : Nat) (h1 : f &&& IDLE_USE_INST_NAP ≠ 0)
    (h2 : f &&& IDLE_USE_INST_SLEEP ≠ 0) :
    (chunk f l).getD 1 emptyState = fastsleepDTState l := by
  unfold chunk
  rw [if_pos h1, if_pos h2]
  rfl

theorem chunk_getD_sleep_only (f l : Nat) (h1 : ¬f &&& IDLE_USE_INST_NAP ≠ 0)
    (h2 : f &&& IDLE_USE_INST_SLEEP ≠ 0) :
    (chunk f l).getD 0 emptyState = fastsleepDTState l := by
  unfold chunk
  rw [if_neg h1, if_pos h2]
  rfl

/- ===== Claims C7 and C10 ===== -/

/-- C7: for every recognized capability at flags index `i`, the appended
descriptor has `exit_latency = latency_ns[i] / 1000` and
`target_residency = latency_ns[i] / 100` (integer division), with the
matching entry kind; a nap descriptor lands at position
`1 + recognizedCount (fl.take i)` and a fastsleep descriptor right after
it when the nap bit is also set. -/
theorem C7_latency_derivation (fl lat : List Nat) (i : Nat)
    (hi : i < fl.length) :
    ((fl.getD i 0) &&& IDLE_USE_INST_NAP ≠ 0 →
      (((powernv_add_idle_states true (some fl) (some lat)
          powernv_states).tbl
            (1 + recognizedCount (fl.take i))).exit_latency =
          lat.getD i 0 / 1000 ∧
       ((powernv_add_idle_states true (some fl) (some lat)
          powernv_states).tbl
            (1 + recognizedCount (fl.take i))).target_residency =
          lat.getD i 0 / 100 ∧
       ((powernv_add_idle_states true (some fl) (some lat)
          powernv_states).tbl
            (1 + recognizedCount (fl.take i))).enter =
          EnterKind.napEnter)) ∧
    ((fl.getD i 0) &&& IDLE_USE_INST_SLEEP ≠ 0 →
      (((powernv_add_idle_states true (some fl) (some lat)
          powernv_states).tbl (1 + recognizedCount (fl.take i) +
            (if (fl.getD i 0) &&& IDLE_USE_INST_NAP ≠ 0 then 1 else
              0))).exit_latency = lat.getD i 0 / 1000 ∧
       ((powernv_add_idle_states true (some fl) (some lat)
          powernv_states).tbl (1 + recognizedCount (fl.take i) +
            (if (fl.getD i 0) &&& IDLE_USE_INST_NAP ≠ 0 then 1 else
              0))).target_residency = lat.getD i 0 / 100 ∧
       ((powernv_add_idle_states true (some fl) (some lat)
          powernv_states).tbl (1 + recognizedCount (fl.take i) +
            (if (fl.getD i 0) &&& IDLE_USE_INST_NAP ≠ 0 then 1 else
              0))).enter = EnterKind.fastsleepEnter)) := by
  constructor
  · intro hnap
    have h0 : (0 : Nat) < (chunk (fl.getD i 0) (lat.getD i 0)).length := by
      rw [chunk_length, if_pos hnap]
      exact Nat.add_pos_left Nat.one_pos _
    have hdes := probe_descriptor_at fl lat i hi 0 h0
    rw [Nat.add_zero] at hdes
    rw [hdes, chunk_getD_nap _ _ hnap]
    exact ⟨rfl, rfl, rfl⟩
  · intro hsleep
    by_cases hnap : (fl.getD i 0) &&& IDLE_USE_INST_NAP ≠ 0
    · have h1 : (1 : Nat) < (chunk (fl.getD i 0) (lat.getD i 0)).length := by
        rw [chunk_length, if_pos hnap, if_pos hsleep]
        omega
      have hdes := probe_descriptor_at fl lat i hi 1 h1
      rw [if_pos hnap]
      rw [hdes, chunk_getD_both _ _ hnap hsleep]
      exact ⟨rfl, rfl, rfl⟩
    · have h0 : (0 : Nat) < (chunk (fl.getD i 0) (lat.getD i 0)).length := by
        rw [chunk_length, if_neg hnap, if_pos hsleep]
        omega
      have hdes := probe_descriptor_at fl lat i hi 0 h0
      rw [if_neg hnap]
      rw [hdes, chunk_getD_sleep_only _ _ hnap hsleep]
      exact ⟨rfl, rfl, rfl⟩

/-- Witness for C7, the spec's example: `flags=[0x00010000]`,
`latency_ns=[10000]` yields a 2-state table whose second state is the
nap (light-sleep-class) state with exit latency 10us and target
residency 100us. -/
theorem C7_latency_derivation_witness :
    ((powernv_add_idle_states true (some [0x10000]) (some [10000])
        powernv_states).tbl 1).exit_latency = 10 ∧
    ((powernv_add_idle_states true (some [0x10000]) (some [10000])
        powernv_states).tbl 1).target_residency = 100 ∧
    ((powernv_add_idle_states true (some [0x10000]) (some [10000])
        powernv_states).tbl 1).enter = EnterKind.napEnter ∧
    (powernv_add_idle_states true (some [0x10000]) (some [10000])
        powernv_states).nr = 2 := by
  have h := (C7_latency_derivation [0x10000] [10000] 0 (by decide)).1
    (by decide)
  exact ⟨h.1, h.2.1, h.2.2, by decide⟩

/-- C10: a flags entry with both capability bits set appends two
consecutive descriptors, nap immediately before fastsleep, with identical
exit latency and target residency both derived from the same latency
cell. -/
theorem C10_both_bits_adjacent_states (fl lat : List Nat) (i : Nat)
    (hi : i < fl.length)
    (hnap : (fl.getD i 0) &&& IDLE_USE_INST_NAP ≠ 0)
    (hsleep : (fl.getD i 0) &&& IDLE_USE_INST_SLEEP ≠ 0) :
    ((powernv_add_idle_states true (some fl) (some lat)
        powernv_states).tbl (1 + recognizedCount (fl.take i))).enter =
      EnterKind.napEnter ∧
    ((powernv_add_idle_states true (some fl) (some lat)
        powernv_states).tbl (1 + recognizedCount (fl.take i) + 1)).enter =
      EnterKind.fastsleepEnter ∧
    ((powernv_add_idle_states true (some fl) (some lat)
        powernv_states).tbl (1 + recognizedCount (fl.take i))).exit_latency =
      ((powernv_add_idle_states true (some fl) (some lat)
        powernv_states).tbl
          (1 + recognizedCount (fl.take i) + 1)).exit_latency ∧
    ((powernv_add_idle_states true (some fl) (some lat)
        powernv_states).tbl
          (1 + recognizedCount (fl.take i))).target_residency =
      ((powernv_add_idle_states true (some fl) (some lat)
        powernv_states).tbl
          (1 + recognizedCount (fl.take i) + 1)).target_residency ∧
    ((powernv_add_idle_states true (some fl) (some lat)
        powernv_states).tbl (1 + recognizedCount (fl.take i))).exit_latency =
      lat.getD i 0 / 1000 ∧
    ((powernv_add_idle_states true (some fl) (some lat)
        powernv_states).tbl
          (1 + recognizedCount (fl.take i))).target_residency =
      lat.getD i 0 / 100 := by
  have h0 : (0 : Nat) < (chunk (fl.getD i 0) (lat.getD i 0)).length := by
    rw [chunk_length, if_pos hnap]
    exact Nat.add_pos_left Nat.one_pos _
  have h1 : (1 : Nat) < (chunk (fl.getD i 0) (lat.getD i 0)).length := by
    rw [chunk_length, if_pos hnap, if_pos hsleep]
    omega
  have hdes0 := probe_descriptor_at fl lat i hi 0 h0
  have hdes1 := probe_descriptor_at fl lat i hi 1 h1
  rw [Nat.add_zero] at hdes0
  rw [hdes0, hdes1, chunk_getD_nap _ _ hnap, chunk_getD_both _ _ hnap hsleep]
  exact ⟨rfl, rfl, rfl, rfl, rfl, rfl⟩

/-- Witness for C10: one entry advertising both nap and sleep at 5000ns:
states 1 and 2 are nap then fastsleep with identical latency (5us) and
residency (50us). -/
theorem C10_both_bits_adjacent_states_witness :
    ((powernv_add_idle_states true (some [0x30000]) (some [5000])
        powernv_states).tbl 1).enter = EnterKind.napEnter ∧
    ((powernv_add_idle_states true (some [0x30000]) (some [5000])
        powernv_states).tbl 2).enter = EnterKind.fastsleepEnter ∧
    ((powernv_add_idle_states true (some [0x30000]) (some [5000])
        powernv_states).tbl 1).exit_latency =
      ((powernv_add_idle_states true (some [0x30000]) (some [5000])
        powernv_states).tbl 2).exit_latency ∧
    ((powernv_add_idle_states true (some [0x30000]) (some [5000])
        powernv_states).tbl 1).target_residency =
      ((powernv_add_idle_states true (some [0x30000]) (some [5000])
        powernv_states).tbl 2).target_residency ∧
    ((powernv_add_idle_states true (some [0x30000]) (some [5000])
        powernv_states).tbl 1).exit_latency = 5 ∧
    ((powernv_add_idle_states true (some [0x30000]) (some [5000])
        powernv_states).tbl 1).target_residency = 50 :=
  C10_both_bits_adjacent_states [0x30000] [5000] 0 (by decide) (by decide)
    (by decide)
